/-
  Verification of the region-constraint engine of JetLagHideAndSeek.

  The repository ships the callers and the unit tests of the `@/maps`
  geometry module (evaluators, pipeline, hiderifyQuestion); the module
  itself is not among the provided sources, so those parts are modelled
  from the specification (each such definition says so in its doc
  comment).  Backend routes (questions router), the tentacles location
  selector and the thermometer staging helpers are embedded directly
  from the TypeScript sources.

  Regions are modelled by their membership semantics: a region is a
  decidable set of points (a characteristic function `Pt → Bool`), and
  the geometric primitives (intersection, world mask, disc, Voronoi
  cell) act pointwise.  The external distance seam (turf / ArcGIS
  geodesic distance) is an explicit parameter `d : Pt → Pt → ℚ`, so
  every theorem holds for any distance function — in particular the
  round-trip results depend only on the evaluators and the answer
  computer sharing the same `d`, exactly as the spec demands.
-/
import Mathlib

namespace HideAndSeek

/-- A coordinate on the map (latitude, longitude), with exact rational
arithmetic standing in for the floating-point numbers of the source. -/
structure Pt where
  lat : ℚ
  lng : ℚ
deriving DecidableEq

/-- A region by its membership semantics: the decidable set of points it
contains.  `Empty` is the everywhere-false region. -/
abbrev Region := Pt → Bool

/-- Squared planar distance; a concrete executable distance used to
instantiate the abstract distance seam in witnesses. -/
def sqDist (a b : Pt) : ℚ :=
  (a.lat - b.lat) ^ 2 + (a.lng - b.lng) ^ 2

/-- Modelled from the spec (§4.1 GeometryKernel, missing `@/maps/geo-utils`):
`intersection(a, b)` acting pointwise on membership. -/
def regionInter (a b : Region) : Region := fun p => a p && b p

/-- Modelled from the spec (§4.1 GeometryKernel, missing `@/maps/geo-utils`):
`worldMask(hole)` / `holedMask` — the full world minus the hole. -/
def holedMask (a : Region) : Region := fun p => !(a p)

/-- Modelled from the spec (§4.1 GeometryKernel, missing `@/maps/geo-utils`):
`buffer(center, radius, unit)` as the disc of all points within `radius`
of `center` under the distance seam `d`. -/
def disc (d : Pt → Pt → ℚ) (center : Pt) (radius : ℚ) : Region :=
  fun p => decide (d p center ≤ radius)

/-- Modelled from the spec (§4.2 VoronoiPartitioner, missing
`@/maps/geo-utils/voronoi`): the half of the binary Voronoi partition of
sites `{a, b}` belonging to `b` — the points strictly closer to `b`;
ties belong to `a`'s side, so the two cells partition the plane. -/
def closerToB (d : Pt → Pt → ℚ) (a b : Pt) : Region :=
  fun p => decide (d p b < d p a)

/-- Modelled from the spec (§4.2 VoronoiPartitioner, missing
`@/maps/geo-utils/voronoi`): `partition(sites, bbox)` for two sites,
returning `none` on coincident sites ("callers must treat this as no
constraint applies"), otherwise the pair (cell of `a`, cell of `b`). -/
def geoSpatialVoronoi (d : Pt → Pt → ℚ) (a b : Pt) :
    Option (Region × Region) :=
  if a = b then none
  else some (holedMask (closerToB d a b), closerToB d a b)

/-- One step of the nearest-site scan: keep the incumbent unless the new
site is strictly closer to `p`. -/
def nearerStep (d : Pt → Pt → ℚ) (p : Pt) (acc : Option Pt) (s : Pt) :
    Option Pt :=
  match acc with
  | none => some s
  | some b => if d p s < d p b then some s else some b

/-- Modelled from the spec (§4.2, n-site Voronoi for Tentacles, missing
`@/maps`): the first site of the list at minimal `d`-distance from `p`
(`none` on the empty list).  The Voronoi cell of a site `s` is the set
of points whose nearest site is `s`. -/
def nearestSite (d : Pt → Pt → ℚ) (sites : List Pt) (p : Pt) : Option Pt :=
  sites.foldl (nearerStep d p) none

/-- Radius question data (§3): `lat`/`lng` are optional because the
runtime data can carry `null` coordinates (the malformed-data test feeds
`lat: null`), `within` is the answer polarity. -/
structure RadiusData where
  lat : Option ℚ
  lng : Option ℚ
  radius : ℚ
  within : Bool
deriving DecidableEq

/-- Thermometer question data (§3): two endpoints and the `warmer`
answer polarity. -/
structure ThermoData where
  pointA : Pt
  pointB : Pt
  warmer : Bool
deriving DecidableEq

/-- Tentacles question data (§3): a center, a radius, the externally
resolved same-category locations, and the answered `chosenLocation`
(`none` models the answer `false`). -/
structure TentaclesData where
  center : Pt
  radius : ℚ
  locations : List Pt
  chosen : Option Pt
deriving DecidableEq

/-- Matching question data (§3): a point and the `same` answer polarity. -/
structure MatchingData where
  point : Pt
  same : Bool
deriving DecidableEq

/-- Measuring question data (§3): the seeker's point, the externally
resolved nearest feature-category location, and the `hiderCloser`
answer polarity. -/
structure MeasuringData where
  point : Pt
  feature : Pt
  hiderCloser : Bool
deriving DecidableEq

/-- The tagged union over the five question variants (§3); `unknown id`
stands for any question whose type is none of the five known ones, which
the dispatcher's default branch must treat as a no-op. -/
inductive QuestionData where
  | radius (q : RadiusData)
  | thermometer (q : ThermoData)
  | tentacles (q : TentaclesData)
  | matching (q : MatchingData)
  | measuring (q : MeasuringData)
  | unknown (id : String)
deriving DecidableEq

/-- The subset of a tentacles question's resolved locations lying within
`radius` of the center (§4.3: "the externally-resolved set of
same-category locations within radius of center"). -/
def inRadiusLocations (d : Pt → Pt → ℚ) (q : TentaclesData) : List Pt :=
  q.locations.filter (fun s => decide (d s q.center ≤ q.radius))

/-- Modelled from the spec (§4.3, missing `@/maps/questions/radius`):
the Radius evaluator.  `none` signals the soft failure on malformed data
(null coordinates), which the dispatcher turns into "candidate
unchanged". -/
def adjustPerRadius (d : Pt → Pt → ℚ) (q : RadiusData) (cand : Region) :
    Option Region :=
  match q.lat, q.lng with
  | some la, some ln =>
      let circle := disc d ⟨la, ln⟩ q.radius
      if q.within then some (regionInter cand circle)
      else some (regionInter cand (holedMask circle))
  | _, _ => none

/-- Modelled from the spec (§4.3, missing `@/maps/questions/thermometer`):
the Thermometer evaluator.  The Voronoi partitioner returns `none` on
coincident endpoints, which propagates as the soft failure ("Coincident
points → Unchanged"); `warmer` selects the cell of point B. -/
def adjustPerThermometer (d : Pt → Pt → ℚ) (q : ThermoData) (cand : Region) :
    Option Region :=
  match geoSpatialVoronoi d q.pointA q.pointB with
  | none => none
  | some (cellA, cellB) =>
      some (regionInter cand (if q.warmer then cellB else cellA))

/-- Modelled from the spec (§4.3, missing `@/maps/questions/tentacles`):
the Tentacles evaluator.  An answered `chosenLocation` keeps the n-site
Voronoi cell of the chosen site among the in-radius locations; the
answer `false` keeps everything outside the disc around the center. -/
def adjustPerTentacles (d : Pt → Pt → ℚ) (q : TentaclesData) (cand : Region) :
    Option Region :=
  match q.chosen with
  | some c =>
      some (regionInter cand
        (fun p => decide (nearestSite d (inRadiusLocations d q) p = some c)))
  | none =>
      some (regionInter cand (holedMask (disc d q.center q.radius)))

/-- Modelled from the spec (§4.3, missing `@/maps/questions/matching`):
the Matching evaluator.  `zoneOf` is the external zone/category data
provider (§6) mapping each point to the id of the zone containing it;
the zone polygon of the question's point is the set of points with the
same zone id. -/
def adjustPerMatching (zoneOf : Pt → Nat) (q : MatchingData) (cand : Region) :
    Option Region :=
  let zone : Region := fun p => decide (zoneOf p = zoneOf q.point)
  if q.same then some (regionInter cand zone)
  else some (regionInter cand (holedMask zone))

/-- Modelled from the spec (§4.3, missing `@/maps/questions/measuring`):
the Measuring evaluator — "structurally identical to Thermometer" with
the sites being the seeker's point and the resolved feature location;
`hiderCloser` selects the cell of the feature. -/
def adjustPerMeasuring (d : Pt → Pt → ℚ) (q : MeasuringData) (cand : Region) :
    Option Region :=
  match geoSpatialVoronoi d q.point q.feature with
  | none => none
  | some (cellPoint, cellFeature) =>
      some (regionInter cand (if q.hiderCloser then cellFeature else cellPoint))

/-- Modelled from the spec (§4.4, missing `@/maps/index`):
`adjustMapGeoDataForQuestion` — dispatch on the question type, with
per-step failure isolation (a soft failure yields the pre-step
candidate) and the default branch a no-op for unknown types. -/
def adjustMapGeoDataForQuestion (d : Pt → Pt → ℚ) (zoneOf : Pt → Nat)
    (q : QuestionData) (cand : Region) : Region :=
  match q with
  | .radius r => (adjustPerRadius d r cand).getD cand
  | .thermometer t => (adjustPerThermometer d t cand).getD cand
  | .tentacles t => (adjustPerTentacles d t cand).getD cand
  | .matching m => (adjustPerMatching zoneOf m cand).getD cand
  | .measuring m => (adjustPerMeasuring d m cand).getD cand
  | .unknown _ => cand

/-- Modelled from the spec (§4.4, missing `@/maps/index`):
`applyQuestionsToMapGeoData` — fold the questions through their
evaluators in list order, starting from the base region. -/
def applyQuestionsToMapGeoData (d : Pt → Pt → ℚ) (zoneOf : Pt → Nat)
    (base : Region) (qs : List QuestionData) : Region :=
  qs.foldl (fun cand q => adjustMapGeoDataForQuestion d zoneOf q cand) base

/-- Modelled from the spec (§4.5 AnswerComputer, missing `@/maps`
`hiderifyQuestion`): compute the answer the hider would submit from the
true hider coordinate, writing it into the question's polarity field.
Each branch reuses the distance and partition definitions of the
matching evaluator: Radius — `distance(hider, center) ≤ radius`;
Thermometer — whether B is strictly closer than A; Tentacles — the
nearest in-radius location when the hider is inside the disc, else
`false`; Matching — whether the hider's zone equals the point's zone;
Measuring — whether the hider is strictly closer to the feature than to
the point.  Malformed radius data is left untouched. -/
def hiderifyQuestion (d : Pt → Pt → ℚ) (zoneOf : Pt → Nat)
    (q : QuestionData) (h : Pt) : QuestionData :=
  match q with
  | .radius r =>
      match r.lat, r.lng with
      | some la, some ln =>
          .radius { r with within := decide (d h ⟨la, ln⟩ ≤ r.radius) }
      | _, _ => .radius r
  | .thermometer t =>
      .thermometer { t with warmer := decide (d h t.pointB < d h t.pointA) }
  | .tentacles t =>
      .tentacles { t with
        chosen :=
          if d h t.center ≤ t.radius then
            nearestSite d (inRadiusLocations d t) h
          else none }
  | .matching m =>
      .matching { m with same := decide (zoneOf h = zoneOf m.point) }
  | .measuring m =>
      .measuring { m with hiderCloser := decide (d h m.feature < d h m.point) }
  | .unknown s => .unknown s

/-- Side condition for the round-trip invariant: for a Tentacles
question whose center disc contains the hider, the resolved location set
must contain at least one in-radius location (the source surfaces an
error to the hider when the lookup returns no locations); every other
question type needs no condition. -/
def roundTripOk (d : Pt → Pt → ℚ) (q : QuestionData) (h : Pt) : Prop :=
  match q with
  | .tentacles t => d h t.center ≤ t.radius → inRadiusLocations d t ≠ []
  | _ => True

/-- The status of a stored session question (shared/src/events.ts:
`questionStatusSchema = z.enum(["pending", "answered"])`). -/
inductive QStatus where
  | pending
  | answered
deriving DecidableEq, BEq

/-- A session question record as the frontend session layer sees it
(shared/src/events.ts `SessionQuestion`), with the raw `data` and
`answerData` payloads modelled by the typed question union. -/
structure SessionQuestion where
  id : String
  qtype : String
  data : Option QuestionData
  status : QStatus
  answerData : Option QuestionData
  createdAt : String
deriving DecidableEq

/-- Embedded from `useSessionMapSync` (backend/ecosystem.config.cjs
companion hook, step 1): keep exactly the session questions with
`status === "answered"` and present `answerData`, and feed their merged
answered payloads onward; pending questions are never inserted. -/
def syncAnsweredQuestions (sqs : List SessionQuestion) : List QuestionData :=
  (sqs.filter (fun sq =>
      decide (sq.status = QStatus.answered) && sq.answerData.isSome)).filterMap
    (fun sq => sq.answerData)

/-- Embedded from `useSessionMapSync` (step 3): the list handed to the
map pipeline — the seeker's pending draft question (when present)
prepended to the answered session questions. -/
def sessionMergedQuestions (draft : Option QuestionData)
    (sqs : List SessionQuestion) : List QuestionData :=
  draft.toList ++ syncAnsweredQuestions sqs

/-- The candidate region the session map shows: the base region folded
through the questions `useSessionMapSync` supplies (the pipeline fold is
modelled from the spec, §4.4). -/
def applySessionQuestions (d : Pt → Pt → ℚ) (zoneOf : Pt → Nat)
    (base : Region) (draft : Option QuestionData)
    (sqs : List SessionQuestion) : Region :=
  applyQuestionsToMapGeoData d zoneOf base (sessionMergedQuestions draft sqs)

/-- Embedded from `computeVoronoi` in
src/components/LatLngPicker.tsx (the ThermometerGpsLayer helper):
returns `none` when the two points are identical; otherwise it builds
the padded bounding box (`span = max(|Δlat|, |Δlng|, 0.05)`,
`pad = span·3 + 1.5`) and queries the external `turf.voronoi` oracle;
fewer than two resulting cells also yields `none`, and the two cell
rings come back with coordinates swapped from (lng, lat) to (lat, lng). -/
def computeVoronoi
    (turfVoronoi : List Pt → ℚ × ℚ × ℚ × ℚ → Option (List (List (ℚ × ℚ))))
    (latA lngA latB lngB : ℚ) :
    Option (List (ℚ × ℚ) × List (ℚ × ℚ)) :=
  if latA = latB ∧ lngA = lngB then none
  else
    let midLat := (latA + latB) / 2
    let midLng := (lngA + lngB) / 2
    let span := max (max |latA - latB| |lngA - lngB|) (1 / 20)
    let pad := span * 3 + 3 / 2
    let bbox := (midLng - pad, midLat - pad, midLng + pad, midLat + pad)
    match turfVoronoi [⟨latA, lngA⟩, ⟨latB, lngB⟩] bbox with
    | none => none
    | some features =>
        match features with
        | f0 :: f1 :: _ =>
            some (f0.map (fun c => (c.2, c.1)), f1.map (fun c => (c.2, c.1)))
        | _ => none

/-- A stored question row (backend/src/db: table `questions`). -/
structure QuestionRow where
  id : String
  sessionId : String
  qtype : String
  data : String
  status : QStatus
  answerData : Option String
  createdAt : String
  answeredAt : Option String
deriving DecidableEq

/-- A stored participant row (backend/src/db: table `participants`). -/
structure ParticipantRow where
  id : String
  sessionId : String
  role : String
  token : String
deriving DecidableEq

/-- Embedded from `resolveParticipant` in backend/src/routes/questions.ts:
a missing token resolves to nobody, otherwise the first participant of
the session holding that token. -/
def resolveParticipant (ps : List ParticipantRow) (sessionId : String)
    (token : Option String) : Option ParticipantRow :=
  match token with
  | none => none
  | some t =>
      ps.find? (fun p => p.token == t && p.sessionId == sessionId)

/-- Embedded from `POST /questions/:id/answer` in
backend/src/routes/questions.ts: look the question up (404 when
missing), refuse a second answer (409), validate the participant (403
on bad token or non-hider role), require `answerData` (400), and only
then set `status`, `answerData` and `answeredAt` on the stored row.
Returns the HTTP status code and the question table after the call. -/
def answerQuestion (qs : List QuestionRow) (ps : List ParticipantRow)
    (qid : String) (token : Option String) (body : Option String)
    (now : String) : Nat × List QuestionRow :=
  match qs.find? (fun r => r.id == qid) with
  | none => (404, qs)
  | some row =>
      if row.status = QStatus.answered then (409, qs)
      else
        match resolveParticipant ps row.sessionId token with
        | none => (403, qs)
        | some p =>
            if p.role != "hider" then (403, qs)
            else
              match body with
              | none => (400, qs)
              | some ans =>
                  (200, qs.map (fun r =>
                    if r.id == qid then
                      { r with
                        status := QStatus.answered
                        answerData := some ans
                        answeredAt := some now }
                    else r))

/-- Ascending `createdAt` order on stored question rows (the drizzle
`orderBy asc(q.createdAt)` clause; `createdAt` is an ISO-8601 text
timestamp, which SQLite orders lexicographically). -/
def createdAtLe (a b : QuestionRow) : Prop :=
  a.createdAt ≤ b.createdAt

instance : DecidableRel createdAtLe :=
  fun a b => inferInstanceAs (Decidable (a.createdAt ≤ b.createdAt))

instance : IsTotal QuestionRow createdAtLe :=
  ⟨fun a b => le_total a.createdAt b.createdAt⟩

instance : IsTrans QuestionRow createdAtLe :=
  ⟨fun _ _ _ hab hbc => le_trans hab hbc⟩

/-- Embedded from the questions endpoints in
backend/src/routes/questions.ts (`GET /sessions/:code/questions`, and
the identical query in `GET /sessions/:code`): the session's question
rows sorted ascending by `createdAt` (`findMany` with a `where` clause
on the session id and `orderBy asc(q.createdAt)`). -/
def getSessionQuestions (table : List QuestionRow) (sessionId : String) :
    List QuestionRow :=
  List.insertionSort createdAtLe
    (table.filter (fun q => q.sessionId == sessionId))

/-- An Overpass location feature as the tentacles card consumes it:
an optional display name and optional coordinates. -/
structure OverpassFeature where
  name : Option String
  coords : Option Pt
deriving DecidableEq

/-- The slice of a tentacles question's data the location selector reads:
nullable center coordinates and radius, and the currently selected
location (`none` models the stored value `false`). -/
structure TentacleSelData where
  lat : Option ℚ
  lng : Option ℚ
  radius : Option ℚ
  location : Option OverpassFeature
deriving DecidableEq

/-- Embedded from `TentacleLocationSelector` in
src/components/cards/tentacles.tsx: when `lat`, `lng` and `radius` are
all present, keep only the features whose coordinates lie within
`radius` of the center under the (turf) distance seam `d`; features
without coordinates are dropped; when any of the three fields is
missing, every feature passes. -/
def filteredFeatures (d : Pt → Pt → ℚ) (sel : TentacleSelData)
    (locations : List OverpassFeature) : List OverpassFeature :=
  match sel.lat, sel.lng, sel.radius with
  | some la, some ln, some r =>
      locations.filter (fun f =>
        match f.coords with
        | none => false
        | some c => decide (d ⟨la, ln⟩ c ≤ r))
  | _, _, _ => locations

/-- Embedded from `TentacleLocationSelector` in
src/components/cards/tentacles.tsx (the render-time reset step): read
the selected location's name; when it is present and non-empty (JS
truthiness) and no filtered feature carries the same name, reset the
selection to `false`; otherwise leave the data unchanged. -/
def runLocationSelector (d : Pt → Pt → ℚ) (sel : TentacleSelData)
    (locations : List OverpassFeature) : TentacleSelData :=
  let filtered := filteredFeatures d sel locations
  match sel.location with
  | none => sel
  | some loc =>
      match loc.name with
      | none => sel
      | some n =>
          if n = "" then sel
          else if filtered.any (fun f => f.name == some n) then sel
          else { sel with location := none }

/-- The four coordinate fields both thermometer staging helpers write
into the new question's data. -/
structure ThermoStage where
  latA : ℚ
  lngA : ℚ
  latB : ℚ
  lngB : ℚ
deriving DecidableEq

/-- Embedded from `stageThermometerManual` in
src/components/session/SessionQuestionPanel.tsx: point A is the map
center and point B is `turf.destination(center, 5, 90, miles)`
(5 miles due east), abstracted here as the seam `destEast5mi`. -/
def stageThermometerManual (destEast5mi : Pt → Pt) (center : Pt) :
    ThermoStage :=
  let dest := destEast5mi center
  { latA := center.lat, lngA := center.lng
    latB := dest.lat, lngB := dest.lng }

/-- Embedded from `runAddThermometer` in the AddQuestionDialog component:
the same map center and the same 5-miles-east destination, but the data
literal assigns `lngB := center.lng` and `lngA := dest.lng` — the two
longitude fields are interchanged relative to `stageThermometerManual`. -/
def runAddThermometer (destEast5mi : Pt → Pt) (center : Pt) :
    ThermoStage :=
  let dest := destEast5mi center
  { latA := center.lat, lngB := center.lng
    latB := dest.lat, lngA := dest.lng }

/-! ## Helper lemmas -/

theorem applyQuestions_append (d : Pt → Pt → ℚ) (zoneOf : Pt → Nat)
    (base : Region) (l1 l2 : List QuestionData) :
    applyQuestionsToMapGeoData d zoneOf base (l1 ++ l2) =
      applyQuestionsToMapGeoData d zoneOf
        (applyQuestionsToMapGeoData d zoneOf base l1) l2 := by
  simp [applyQuestionsToMapGeoData, List.foldl_append]

theorem foldl_nearerStep_isSome (d : Pt → Pt → ℚ) (p : Pt) :
    ∀ (sites : List Pt) (b : Pt),
      (sites.foldl (nearerStep d p) (some b)).isSome := by
  intro sites
  induction sites with
  | nil => intro b; rfl
  | cons s rest ih =>
      intro b
      by_cases hlt : d p s < d p b
      · simpa [List.foldl_cons, nearerStep, hlt] using ih s
      · simpa [List.foldl_cons, nearerStep, hlt] using ih b

theorem nearestSite_isSome (d : Pt → Pt → ℚ) (p : Pt) (sites : List Pt)
    (hne : sites ≠ []) : (nearestSite d sites p).isSome := by
  cases sites with
  | nil => exact absurd rfl hne
  | cons s rest =>
      simpa [nearestSite, List.foldl_cons, nearerStep]
        using foldl_nearerStep_isSome d p rest s

/-! ## Claim theorems -/

/-- C6: a question whose type is not one of the five known variants is a
no-op — the dispatcher returns the candidate unchanged, and running the
pipeline with the unknown-typed question included equals running it with
that question omitted. -/
theorem unknown_question_type_noop (d : Pt → Pt → ℚ) (zoneOf : Pt → Nat)
    (s : String) (cand base : Region) (l1 l2 : List QuestionData) :
    adjustMapGeoDataForQuestion d zoneOf (.unknown s) cand = cand ∧
    applyQuestionsToMapGeoData d zoneOf base (l1 ++ .unknown s :: l2) =
      applyQuestionsToMapGeoData d zoneOf base (l1 ++ l2) := by
  refine ⟨rfl, ?_⟩
  simp [applyQuestionsToMapGeoData, List.foldl_append, List.foldl_cons,
    adjustMapGeoDataForQuestion]

/-- C4: per-step failure isolation — a Radius question with `lat = null`
leaves the pre-step candidate unchanged, and the pipeline's output with
that question included equals the output with it omitted; the evaluator's
soft failure never escapes. -/
theorem malformed_radius_containment (d : Pt → Pt → ℚ) (zoneOf : Pt → Nat)
    (r : RadiusData) (cand base : Region) (l1 l2 : List QuestionData)
    (hlat : r.lat = none) :
    adjustMapGeoDataForQuestion d zoneOf (.radius r) cand = cand ∧
    applyQuestionsToMapGeoData d zoneOf base (l1 ++ .radius r :: l2) =
      applyQuestionsToMapGeoData d zoneOf base (l1 ++ l2) := by
  have hstep : ∀ c : Region,
      adjustMapGeoDataForQuestion d zoneOf (.radius r) c = c := by
    intro c
    rcases r with ⟨rlat, rlng, rrad, rwi⟩
    cases hlat
    cases rlng <;> rfl
  refine ⟨hstep cand, ?_⟩
  simp [applyQuestionsToMapGeoData, List.foldl_append, List.foldl_cons, hstep]

/-- C4 witness: the theorem applied to a concrete malformed radius
question inside a one-question pipeline. -/
theorem malformed_radius_containment_witness :
    (⟨none, some 10, 5, true⟩ : RadiusData).lat = none ∧
    adjustMapGeoDataForQuestion sqDist (fun _ => 0)
      (.radius ⟨none, some 10, 5, true⟩) (fun _ => true) = (fun _ => true) :=
  ⟨rfl,
    (malformed_radius_containment sqDist (fun _ => 0)
      ⟨none, some 10, 5, true⟩ (fun _ => true) (fun _ => true) [] []
      rfl).1⟩

/-- C2: pending session questions are never folded into the candidate
region — the synced pipeline result with a pending question included is
identical to the result with it omitted, and every question actually fed
onward from the session store has status `answered` with present
`answerData`. -/
theorem pending_questions_are_noops (d : Pt → Pt → ℚ) (zoneOf : Pt → Nat)
    (base : Region) (draft : Option QuestionData)
    (l1 l2 : List SessionQuestion) (sq : SessionQuestion)
    (hst : sq.status = QStatus.pending) :
    applySessionQuestions d zoneOf base draft (l1 ++ sq :: l2) =
      applySessionQuestions d zoneOf base draft (l1 ++ l2) ∧
    ∀ q ∈ syncAnsweredQuestions (l1 ++ sq :: l2),
      ∃ sq2, sq2 ∈ l1 ++ sq :: l2 ∧ sq2.status = QStatus.answered ∧
        sq2.answerData = some q := by
  have hdec : decide (QStatus.pending = QStatus.answered) = false := by decide
  have hpred : (decide (sq.status = QStatus.answered) &&
      sq.answerData.isSome) = false := by
    rw [hst, hdec]
    rfl
  have hsync : syncAnsweredQuestions (l1 ++ sq :: l2) =
      syncAnsweredQuestions (l1 ++ l2) := by
    unfold syncAnsweredQuestions
    rw [List.filter_append, List.filter_append,
      List.filter_cons_of_neg (by simp [hpred])]
  constructor
  · unfold applySessionQuestions sessionMergedQuestions
    rw [hsync]
  · intro q hq
    rcases List.mem_filterMap.1 hq with ⟨a, ha, hdata⟩
    rcases List.mem_filter.1 ha with ⟨hmem, hpred2⟩
    simp only [Bool.and_eq_true, decide_eq_true_eq] at hpred2
    exact ⟨a, hmem, hpred2.1, hdata⟩

/-- C2 witness: the theorem applied to a concrete pending question as
the only session question. -/
theorem pending_questions_are_noops_witness :
    (⟨"q1", "radius", none, QStatus.pending, none, "t1"⟩ :
        SessionQuestion).status = QStatus.pending ∧
    applySessionQuestions sqDist (fun _ => 0) (fun _ => true) none
        ([] ++ ⟨"q1", "radius", none, QStatus.pending, none, "t1"⟩ :: []) =
      applySessionQuestions sqDist (fun _ => 0) (fun _ => true) none
        ([] ++ []) :=
  ⟨rfl,
    (pending_questions_are_noops sqDist (fun _ => 0) (fun _ => true) none
      [] [] ⟨"q1", "radius", none, QStatus.pending, none, "t1"⟩ rfl).1⟩

/-- C5: for distinct thermometer endpoints, the `warmer = true` and
`warmer = false` results are disjoint, and their union is exactly the
prior candidate region (the binary Voronoi cells of A and B are
complementary, so in the exact membership model the coverage holds with
no boundary error at all). -/
theorem thermometer_complementarity (d : Pt → Pt → ℚ) (zoneOf : Pt → Nat)
    (a b : Pt) (cand : Region) (hab : a ≠ b) :
    (∀ p, ¬(adjustMapGeoDataForQuestion d zoneOf
          (.thermometer ⟨a, b, true⟩) cand p = true ∧
        adjustMapGeoDataForQuestion d zoneOf
          (.thermometer ⟨a, b, false⟩) cand p = true)) ∧
    (∀ p, cand p = true ↔
      (adjustMapGeoDataForQuestion d zoneOf
          (.thermometer ⟨a, b, true⟩) cand p = true ∨
        adjustMapGeoDataForQuestion d zoneOf
          (.thermometer ⟨a, b, false⟩) cand p = true)) := by
  have hT : ∀ p, adjustMapGeoDataForQuestion d zoneOf
      (.thermometer ⟨a, b, true⟩) cand p = (cand p && closerToB d a b p) := by
    intro p
    simp [adjustMapGeoDataForQuestion, adjustPerThermometer,
      geoSpatialVoronoi, hab, regionInter]
  have hF : ∀ p, adjustMapGeoDataForQuestion d zoneOf
      (.thermometer ⟨a, b, false⟩) cand p =
        (cand p && !(closerToB d a b p)) := by
    intro p
    simp [adjustMapGeoDataForQuestion, adjustPerThermometer,
      geoSpatialVoronoi, hab, regionInter, holedMask]
  constructor
  · intro p
    rw [hT, hF]
    cases cand p <;> cases closerToB d a b p <;> simp
  · intro p
    rw [hT, hF]
    cases cand p <;> cases closerToB d a b p <;> simp

/-- C5 witness: the theorem applied to two concrete distinct endpoints. -/
theorem thermometer_complementarity_witness :
    (⟨0, 0⟩ : Pt) ≠ (⟨0, 1⟩ : Pt) ∧
    ∀ p, (fun _ => true : Region) p = true ↔
      (adjustMapGeoDataForQuestion sqDist (fun _ => 0)
          (.thermometer ⟨⟨0, 0⟩, ⟨0, 1⟩, true⟩) (fun _ => true) p = true ∨
        adjustMapGeoDataForQuestion sqDist (fun _ => 0)
          (.thermometer ⟨⟨0, 0⟩, ⟨0, 1⟩, false⟩) (fun _ => true) p = true) :=
  ⟨by decide,
    (thermometer_complementarity sqDist (fun _ => 0) ⟨0, 0⟩ ⟨0, 1⟩
      (fun _ => true) (by decide)).2⟩

/-- C3: two coincident sites make the Voronoi partitioner return `none`
(both the embedded `computeVoronoi` helper, regardless of the turf
oracle, and the partitioner used by the evaluators), and the Thermometer
evaluator treats the degenerate input as no constraint, leaving the
candidate region unchanged. -/
theorem coincident_sites_degenerate
    (oracle : List Pt → ℚ × ℚ × ℚ × ℚ → Option (List (List (ℚ × ℚ))))
    (la ln : ℚ) (d : Pt → Pt → ℚ) (zoneOf : Pt → Nat) (t : ThermoData)
    (cand : Region) (hco : t.pointA = t.pointB) :
    computeVoronoi oracle la ln la ln = none ∧
    geoSpatialVoronoi d t.pointA t.pointB = none ∧
    adjustMapGeoDataForQuestion d zoneOf (.thermometer t) cand = cand := by
  refine ⟨?_, ?_, ?_⟩
  · simp [computeVoronoi]
  · simp [geoSpatialVoronoi, hco]
  · simp [adjustMapGeoDataForQuestion, adjustPerThermometer,
      geoSpatialVoronoi, hco]

/-- C3 witness: the theorem applied to a concrete coincident pair. -/
theorem coincident_sites_degenerate_witness :
    ((⟨⟨1, 2⟩, ⟨1, 2⟩, true⟩ : ThermoData).pointA =
      (⟨⟨1, 2⟩, ⟨1, 2⟩, true⟩ : ThermoData).pointB) ∧
    adjustMapGeoDataForQuestion sqDist (fun _ => 0)
        (.thermometer ⟨⟨1, 2⟩, ⟨1, 2⟩, true⟩) (fun _ => true) =
      (fun _ => true) :=
  ⟨rfl,
    (coincident_sites_degenerate (fun _ _ => none) 1 2 sqDist (fun _ => 0)
      ⟨⟨1, 2⟩, ⟨1, 2⟩, true⟩ (fun _ => true) rfl).2.2⟩

/-- C1 counterexample: the unconditional round-trip invariant fails for
Tentacles when the resolved location set has no in-radius member while
the hider sits inside the disc.  Concretely: center (0,0), radius 1, no
resolved locations, hider at the center of a full-world candidate
region; the computed answer is `false` ("no qualifying location"), whose
fold keeps only the outside of the disc and so excludes the hider. -/
theorem round_trip_counterexample :
    ((fun _ => true : Region) ⟨0, 0⟩ = true) ∧
    adjustMapGeoDataForQuestion (fun _ _ => 0) (fun _ => 0)
      (hiderifyQuestion (fun _ _ => 0) (fun _ => 0)
        (.tentacles ⟨⟨0, 0⟩, 1, [], none⟩) ⟨0, 0⟩)
      (fun _ => true) ⟨0, 0⟩ = false := by
  exact ⟨rfl, by decide⟩

/-- C1 (amended): round-trip invariant — for every question type,
computing the answer from the hider's true coordinate with the answer
computer (`hiderifyQuestion`) and folding the answered question through
the matching evaluator yields a region that still contains the hider's
coordinate, provided a Tentacles question whose disc contains the hider
has at least one in-radius resolved location (`roundTripOk`); the other
four question types need no side condition. -/
theorem round_trip_preserves_hider (d : Pt → Pt → ℚ) (zoneOf : Pt → Nat)
    (q : QuestionData) (h : Pt) (cand : Region) (hin : cand h = true)
    (hok : roundTripOk d q h) :
    adjustMapGeoDataForQuestion d zoneOf (hiderifyQuestion d zoneOf q h)
      cand h = true := by
  cases q with
  | radius r =>
      rcases r with ⟨rlat, rlng, rrad, rwi⟩
      cases rlat with
      | none =>
          simpa [hiderifyQuestion, adjustMapGeoDataForQuestion,
            adjustPerRadius] using hin
      | some la =>
          cases rlng with
          | none =>
              simpa [hiderifyQuestion, adjustMapGeoDataForQuestion,
                adjustPerRadius] using hin
          | some ln =>
              by_cases hd : d h ⟨la, ln⟩ ≤ rrad
              · simp [hiderifyQuestion, adjustMapGeoDataForQuestion,
                  adjustPerRadius, regionInter, disc, hd, hin]
              · simp [hiderifyQuestion, adjustMapGeoDataForQuestion,
                  adjustPerRadius, regionInter, holedMask, disc, hd, hin]
  | thermometer t =>
      rcases t with ⟨A, B, w⟩
      by_cases hab : A = B
      · simp [hiderifyQuestion, adjustMapGeoDataForQuestion,
          adjustPerThermometer, geoSpatialVoronoi, hab, hin]
      · by_cases hw : d h B < d h A
        · simp [hiderifyQuestion, adjustMapGeoDataForQuestion,
            adjustPerThermometer, geoSpatialVoronoi, hab, regionInter,
            closerToB, hw, hin]
        · simp [hiderifyQuestion, adjustMapGeoDataForQuestion,
            adjustPerThermometer, geoSpatialVoronoi, hab, regionInter,
            holedMask, closerToB, hw, hin]
  | tentacles t =>
      rcases t with ⟨c, r, locs, ch⟩
      by_cases hd : d h c ≤ r
      · have hne : inRadiusLocations d ⟨c, r, locs, ch⟩ ≠ [] := hok hd
        obtain ⟨cho, hcho⟩ : ∃ x,
            nearestSite d (inRadiusLocations d ⟨c, r, locs, ch⟩) h =
              some x :=
          Option.isSome_iff_exists.1 (nearestSite_isSome d h _ hne)
        simp only [inRadiusLocations] at hcho
        simp [hiderifyQuestion, adjustMapGeoDataForQuestion,
          adjustPerTentacles, inRadiusLocations, hd, hcho, regionInter,
          hin]
      · simp [hiderifyQuestion, adjustMapGeoDataForQuestion,
          adjustPerTentacles, hd, regionInter, holedMask, disc, hin]
  | matching m =>
      rcases m with ⟨pt, sm⟩
      by_cases hz : zoneOf h = zoneOf pt
      · simp [hiderifyQuestion, adjustMapGeoDataForQuestion,
          adjustPerMatching, hz, regionInter, hin]
      · simp [hiderifyQuestion, adjustMapGeoDataForQuestion,
          adjustPerMatching, hz, regionInter, holedMask, hin]
  | measuring m =>
      rcases m with ⟨pt, ft, hc⟩
      by_cases hpf : pt = ft
      · simp [hiderifyQuestion, adjustMapGeoDataForQuestion,
          adjustPerMeasuring, geoSpatialVoronoi, hpf, hin]
      · by_cases hw : d h ft < d h pt
        · simp [hiderifyQuestion, adjustMapGeoDataForQuestion,
            adjustPerMeasuring, geoSpatialVoronoi, hpf, regionInter,
            closerToB, hw, hin]
        · simp [hiderifyQuestion, adjustMapGeoDataForQuestion,
            adjustPerMeasuring, geoSpatialVoronoi, hpf, regionInter,
            holedMask, closerToB, hw, hin]
  | unknown s =>
      simpa [hiderifyQuestion, adjustMapGeoDataForQuestion] using hin

/-- C1 witness: the theorem applied to a concrete radius question and
hider inside the full-world candidate region. -/
theorem round_trip_preserves_hider_witness :
    ((fun _ => true : Region) ⟨0, 0⟩ = true) ∧
    roundTripOk sqDist (.radius ⟨some 0, some 0, 5, true⟩) ⟨0, 0⟩ ∧
    adjustMapGeoDataForQuestion sqDist (fun _ => 0)
      (hiderifyQuestion sqDist (fun _ => 0)
        (.radius ⟨some 0, some 0, 5, true⟩) ⟨0, 0⟩)
      (fun _ => true) ⟨0, 0⟩ = true :=
  ⟨rfl, trivial,
    round_trip_preserves_hider sqDist (fun _ => 0)
      (.radius ⟨some 0, some 0, 5, true⟩) ⟨0, 0⟩
      (fun _ => true) rfl trivial⟩

/-- C7: the question store supplies questions in ascending `createdAt`
order — for any stored table and session, the list the questions
endpoints return satisfies `questions[i].createdAt ≤
questions[j].createdAt` for all indices `i < j`. -/
theorem session_questions_sorted (table : List QuestionRow) (sid : String)
    (i j : Nat) (hij : i < j)
    (hj : j < (getSessionQuestions table sid).length) :
    ((getSessionQuestions table sid).get
        ⟨i, lt_trans hij hj⟩).createdAt ≤
      ((getSessionQuestions table sid).get ⟨j, hj⟩).createdAt := by
  have hs : List.Sorted createdAtLe (getSessionQuestions table sid) :=
    List.sorted_insertionSort createdAtLe
      (table.filter (fun q => q.sessionId == sid))
  exact hs.rel_get_of_lt (Fin.mk_lt_mk.2 hij)

/-- C7 witness: the theorem applied to a concrete two-row table whose
rows arrive in descending creation order. -/
theorem session_questions_sorted_witness :
    0 < 1 ∧
    1 < (getSessionQuestions
        [⟨"q2", "s", "radius", "{}", QStatus.pending, none, "b", none⟩,
         ⟨"q1", "s", "radius", "{}", QStatus.pending, none, "a", none⟩]
        "s").length ∧
    ((getSessionQuestions
        [⟨"q2", "s", "radius", "{}", QStatus.pending, none, "b", none⟩,
         ⟨"q1", "s", "radius", "{}", QStatus.pending, none, "a", none⟩]
        "s").get ⟨0, by
          simp only [getSessionQuestions, List.length_insertionSort]
          decide⟩).createdAt ≤
      ((getSessionQuestions
        [⟨"q2", "s", "radius", "{}", QStatus.pending, none, "b", none⟩,
         ⟨"q1", "s", "radius", "{}", QStatus.pending, none, "a", none⟩]
        "s").get ⟨1, by
          simp only [getSessionQuestions, List.length_insertionSort]
          decide⟩).createdAt :=
  ⟨by decide, by
    simp only [getSessionQuestions, List.length_insertionSort]
    decide,
    session_questions_sorted
      [⟨"q2", "s", "radius", "{}", QStatus.pending, none, "b", none⟩,
       ⟨"q1", "s", "radius", "{}", QStatus.pending, none, "a", none⟩]
      "s" 0 1 (by decide) (by
        simp only [getSessionQuestions, List.length_insertionSort]
        decide)⟩

/-- C8: answering a question is one-shot — when the stored question
already has status `answered`, the answer endpoint responds 409 and the
stored table (status, answerData, answeredAt of every row) is left
completely unchanged, so a question transitions from pending to answered
at most once. -/
theorem answer_endpoint_one_shot (qs : List QuestionRow)
    (ps : List ParticipantRow) (qid : String) (token : Option String)
    (body : Option String) (now : String) (row : QuestionRow)
    (hfind : qs.find? (fun r => r.id == qid) = some row)
    (hst : row.status = QStatus.answered) :
    answerQuestion qs ps qid token body now = (409, qs) := by
  unfold answerQuestion
  rw [hfind]
  simp [hst]

/-- C8 witness: the theorem applied to a concrete already-answered row. -/
theorem answer_endpoint_one_shot_witness :
    ([(⟨"q1", "s", "radius", "{}", QStatus.answered, some "a", "t", some
          "t2"⟩ : QuestionRow)].find? (fun r => r.id == "q1") =
        some ⟨"q1", "s", "radius", "{}", QStatus.answered, some "a", "t",
          some "t2"⟩) ∧
    answerQuestion
        [⟨"q1", "s", "radius", "{}", QStatus.answered, some "a", "t",
          some "t2"⟩]
        [⟨"p1", "s", "hider", "tok"⟩] "q1" (some "tok") (some "x") "t3" =
      (409,
        [⟨"q1", "s", "radius", "{}", QStatus.answered, some "a", "t",
          some "t2"⟩]) :=
  ⟨by decide,
    answer_endpoint_one_shot
      [⟨"q1", "s", "radius", "{}", QStatus.answered, some "a", "t",
        some "t2"⟩]
      [⟨"p1", "s", "hider", "tok"⟩] "q1" (some "tok") (some "x") "t3"
      ⟨"q1", "s", "radius", "{}", QStatus.answered, some "a", "t",
        some "t2"⟩
      (by decide) rfl⟩

/-- C9 counterexample: the tentacles selection invariant fails as
stated — a selected location WITHOUT a name is never reset, even when it
lies far outside the radius.  Concretely: center (0,0), radius 1, an
unnamed selected location at (5,0) (squared distance 25 > 1), and no
resolved locations at all; after the selector runs the selection is
still in place. -/
theorem tentacle_selection_counterexample :
    (runLocationSelector sqDist
        ⟨some 0, some 0, some 1, some ⟨none, some ⟨5, 0⟩⟩⟩ []).location =
      some ⟨none, some ⟨5, 0⟩⟩ ∧
    ¬ sqDist ⟨0, 0⟩ ⟨5, 0⟩ ≤ 1 := by
  refine ⟨rfl, ?_⟩
  norm_num [sqDist]

/-- C9 (amended): after the location selector runs, a still-selected
location carrying a non-empty name shares that name with some location
of the filtered list — hence, when `lat`, `lng` and `radius` are all
set, with some location lying within `radius` of the center; a named
selection matching no in-radius location is reset to `false`, while an
unnamed (or empty-named) selection is left untouched and may remain
outside the radius. -/
theorem tentacle_selection_amended (d : Pt → Pt → ℚ)
    (sel : TentacleSelData) (locations : List OverpassFeature)
    (loc : OverpassFeature) (n : String) (la ln r : ℚ)
    (hsel : (runLocationSelector d sel locations).location = some loc)
    (hname : loc.name = some n) (hne : n ≠ "")
    (hla : sel.lat = some la) (hln : sel.lng = some ln)
    (hr : sel.radius = some r) :
    ∃ f, f ∈ filteredFeatures d sel locations ∧ f.name = some n ∧
      ∃ c, f.coords = some c ∧ d ⟨la, ln⟩ c ≤ r := by
  rcases sel with ⟨slat, slng, srad, sloc⟩
  obtain rfl : slat = some la := hla
  obtain rfl : slng = some ln := hln
  obtain rfl : srad = some r := hr
  cases sloc with
  | none => simp [runLocationSelector] at hsel
  | some loc0 =>
      cases hn0 : loc0.name with
      | none =>
          simp [runLocationSelector, hn0] at hsel
          subst hsel
          exact absurd hname (by simp [hn0])
      | some m =>
          by_cases hm : m = ""
          · simp [runLocationSelector, hn0, hm] at hsel
            subst hsel
            rw [hn0] at hname
            obtain rfl : m = n := by injection hname
            exact absurd hm hne
          · by_cases hany :
                (filteredFeatures d ⟨some la, some ln, some r, some loc0⟩
                    locations).any (fun f => f.name == some m) = true
            · simp [runLocationSelector, hn0, hm, hany] at hsel
              subst hsel
              rw [hn0] at hname
              obtain rfl : m = n := by injection hname
              rcases List.any_eq_true.1 hany with ⟨f, hfmem, hfname⟩
              refine ⟨f, hfmem, by simpa using hfname, ?_⟩
              rcases List.mem_filter.1 hfmem with ⟨_, hpred⟩
              cases hc : f.coords with
              | none => rw [hc] at hpred; cases hpred
              | some c =>
                  rw [hc] at hpred
                  exact ⟨c, rfl, by simpa using hpred⟩
            · simp [runLocationSelector, hn0, hm, hany] at hsel

/-- C9 witness: the amended theorem applied to a concrete named
selection whose name matches an in-radius location. -/
theorem tentacle_selection_amended_witness :
    ((runLocationSelector (fun _ _ => 0)
        ⟨some 0, some 0, some 1, some ⟨some "a", some ⟨2, 2⟩⟩⟩
        [⟨some "a", some ⟨0, 0⟩⟩]).location =
      some ⟨some "a", some ⟨2, 2⟩⟩) ∧
    ∃ f, f ∈ filteredFeatures (fun _ _ => 0)
        ⟨some 0, some 0, some 1, some ⟨some "a", some ⟨2, 2⟩⟩⟩
        [⟨some "a", some ⟨0, 0⟩⟩] ∧ f.name = some "a" ∧
      ∃ c, f.coords = some c ∧ (fun (_ _ : Pt) => (0 : ℚ)) ⟨0, 0⟩ c ≤ 1 :=
  ⟨by decide,
    tentacle_selection_amended (fun _ _ => 0)
      ⟨some 0, some 0, some 1, some ⟨some "a", some ⟨2, 2⟩⟩⟩
      [⟨some "a", some ⟨0, 0⟩⟩] ⟨some "a", some ⟨2, 2⟩⟩ "a" 0 0 1
      (by decide) rfl (by decide) rfl rfl rfl⟩

/-- C10 counterexample: the two thermometer staging helpers are not
equivalent.  The destination seam (`turf.destination(center, 5, 90,
miles)`) is instantiated with a concrete destination whose longitude
differs from the center's — which is true of the real turf value for
every center, since travelling 5 miles due east strictly increases the
longitude.  The two produced data records differ. -/
theorem thermometer_staging_counterexample :
    runAddThermometer (fun _ => ⟨53, 11⟩) ⟨53, 10⟩ ≠
      stageThermometerManual (fun _ => ⟨53, 11⟩) ⟨53, 10⟩ := by
  decide

/-- C10 (amended): for the same map center and the same destination
seam, `runAddThermometer` and `stageThermometerManual` agree on `latA`
and `latB`, but `runAddThermometer` interchanges the two longitude
fields: its `lngA` is the other function's `lngB` (the destination's
longitude) and its `lngB` is the other function's `lngA` (the center's
longitude); the records coincide only when the destination's longitude
equals the center's. -/
theorem thermometer_staging_swapped_lngs (destEast5mi : Pt → Pt)
    (center : Pt) :
    (runAddThermometer destEast5mi center).latA =
      (stageThermometerManual destEast5mi center).latA ∧
    (runAddThermometer destEast5mi center).latB =
      (stageThermometerManual destEast5mi center).latB ∧
    (runAddThermometer destEast5mi center).lngA =
      (stageThermometerManual destEast5mi center).lngB ∧
    (runAddThermometer destEast5mi center).lngB =
      (stageThermometerManual destEast5mi center).lngA :=
  ⟨rfl, rfl, rfl, rfl⟩

end HideAndSeek
